import Mathlib

/-!
A shallow embedding of the Analogy Assist application (`src/main.py`) and
proofs about its prompt-template renderer, request-header builder, and
response extractor.

Conventions of the embedding:
* Python strings are Lean `String`s.  Python f-string templates are written
  as explicit concatenations, split at interpolation points and at line
  breaks; the literal text (including trailing spaces) is copied verbatim
  from the source, with apostrophes written as the escape `\x27`.
* A parsed JSON value (the result of `response.json()`) is the inductive
  type `PyVal`; `None` (from a failed request) is modelled by `Option`.
* Python operations that can raise are embedded as `Except String`, the
  error string naming the exception class that would be raised.
-/

/-- One JSON-like Python value, as produced by `response.json()`. -/
inductive PyVal where
  | vnull  : PyVal
  | vbool  : Bool → PyVal
  | vnum   : Int → PyVal
  | vstr   : String → PyVal
  | vlist  : List PyVal → PyVal
  | vdict  : List (String × PyVal) → PyVal

/-- Python truthiness of a parsed JSON value (`if response and ...`). -/
def truthy : PyVal → Bool
  | .vnull => false
  | .vbool b => b
  | .vnum n => n != 0
  | .vstr s => s != ""
  | .vlist xs => !xs.isEmpty
  | .vdict es => !es.isEmpty

/-- Dictionary lookup: the value stored under key `k`, if any. -/
def dictFind (es : List (String × PyVal)) (k : String) : Option PyVal :=
  (es.find? (fun e => e.1 == k)).map (fun e => e.2)

/-- Embeds `get_headers` (src/main.py lines 31-35): the raw header
dictionary built from the session token. -/
def get_headers (hf_token : String) : List (String × String) :=
  [("Authorization", "Bearer " ++ hf_token), ("Content-Type", "application/json")]

/-- Embeds the credential gate (src/main.py lines 14-16): `if not
user_token: st.warning(...); st.stop()`.  An empty token halts the script,
so no later code runs; a non-empty token flows on as `hf_token`. -/
def token_gate (user_token : String) : Option String :=
  if user_token = "" then none else some user_token

/-- The header set the running session can ever produce for a given
credential: the credential gate followed by `get_headers`.  `none` means
the script stopped before any header was built. -/
def session_headers (user_token : String) : Option (List (String × String)) :=
  (token_gate user_token).map get_headers

/-- Embeds `create_analogy_prompt` (src/main.py lines 48-100).  The five
f-string templates are transcribed verbatim as concatenations split at the
interpolation points and at line breaks. -/
def create_analogy_prompt (concept learning_mode difficulty_level : String)
    (context : String := "") : String :=
  let base_context := if context ≠ "" then "Context: " ++ context ++ "\n" else ""
  if learning_mode = "Simple Analogy Explanation" then
    "Explain the concept of \x27" ++ concept ++ "\x27 using a simple, relatable analogy. " ++ "\n"
    ++ base_context ++ "\n"
    ++ "Make it " ++ difficulty_level ++ " level and easy to understand. Use everyday objects or situations that most people are familiar with." ++ "\n"
    ++ "\n"
    ++ "Format your response as:" ++ "\n"
    ++ "**Concept:** " ++ concept ++ "\n"
    ++ "**Analogy:** [Your analogy here]" ++ "\n"
    ++ "**Explanation:** [How the analogy relates to the concept]" ++ "\n"
  else if learning_mode = "Multiple Analogies Comparison" then
    "Provide 3 different analogies to explain \x27" ++ concept ++ "\x27 from different perspectives. " ++ "\n"
    ++ base_context ++ "\n"
    ++ "Make it " ++ difficulty_level ++ " level. Show how each analogy highlights different aspects of the concept." ++ "\n"
    ++ "\n"
    ++ "Format your response as:" ++ "\n"
    ++ "**Concept:** " ++ concept ++ "\n"
    ++ "**Analogy 1:** [First analogy and explanation]" ++ "\n"
    ++ "**Analogy 2:** [Second analogy and explanation]  " ++ "\n"
    ++ "**Analogy 3:** [Third analogy and explanation]" ++ "\n"
    ++ "**Summary:** [How all analogies work together to explain the concept]" ++ "\n"
  else if learning_mode = "Interactive Analogy Building" then
    "Help me build an analogy for \x27" ++ concept ++ "\x27 step by step. " ++ "\n"
    ++ base_context ++ "\n"
    ++ "Make it " ++ difficulty_level ++ " level. Start by asking what familiar thing or situation I\x27d like to compare it to, then guide me through building the analogy." ++ "\n"
    ++ "\n"
    ++ "Start with: \"Let\x27s build an analogy for " ++ concept ++ " together! What\x27s something from your daily life that you\x27re very familiar with that we could potentially compare to " ++ concept ++ "?\"" ++ "\n"
  else if learning_mode = "Problem-Solving with Analogies" then
    "I need to solve a problem or understand a challenge related to \x27" ++ concept ++ "\x27. " ++ "\n"
    ++ base_context ++ "\n"
    ++ "Make it " ++ difficulty_level ++ " level. Use analogies to help me understand the problem and potential solutions." ++ "\n"
    ++ "\n"
    ++ "Format your response as:" ++ "\n"
    ++ "**Problem/Challenge:** [Identify the key challenge with " ++ concept ++ "]" ++ "\n"
    ++ "**Analogy:** [Use an analogy to explain the problem]" ++ "\n"
    ++ "**Solution Approach:** [Use the same analogy to suggest solutions]" ++ "\n"
    ++ "**Application:** [How to apply this understanding practically]" ++ "\n"
  else
    "Create an engaging story that naturally incorporates and explains \x27" ++ concept ++ "\x27 through analogies. " ++ "\n"
    ++ base_context ++ "\n"
    ++ "Make it " ++ difficulty_level ++ " level. The story should make the concept memorable and easy to understand." ++ "\n"
    ++ "\n"
    ++ "Format your response as:" ++ "\n"
    ++ "**Story Title:** [Creative title]" ++ "\n"
    ++ "**Story:** [Your engaging story that explains " ++ concept ++ "]" ++ "\n"
    ++ "**Key Takeaways:** [Main points about " ++ concept ++ " from the story]" ++ "\n"

/-- Python whitespace recognised by `str.strip()` (ASCII part). -/
def isPySpace (c : Char) : Bool :=
  c == ' ' || c == '\t' || c == '\n' || c == '\r' || c == '\x0b' || c == '\x0c'

/-- Embeds Python `str.strip()`: removes leading and trailing whitespace. -/
def pyStrip (s : String) : String :=
  ⟨((s.data.dropWhile isPySpace).reverse.dropWhile isPySpace).reverse⟩

/-- Does `needle` occur at the start of `l`? (a prefix test on char lists). -/
def startsWithL : List Char → List Char → Bool
  | [], _ => true
  | _ :: _, [] => false
  | p :: ps, c :: cs => p == c && startsWithL ps cs

/-- Embeds Python `k in x` where `k` is a string and `x` a parsed JSON
value: key membership for objects, substring search for strings, element
membership for sequences, and a `TypeError` otherwise. -/
def occursInL (n : List Char) : List Char → Bool
  | [] => n.isEmpty
  | c :: cs => startsWithL n (c :: cs) || occursInL n cs

/-- `k in x` for Python `x` of each JSON shape. -/
def pyContains (k : String) : PyVal → Except String Bool
  | .vstr s => .ok (occursInL k.data s.data)
  | .vlist xs => .ok (xs.any (fun e => match e with | .vstr s => s == k | _ => false))
  | .vdict es => .ok (dictFind es k).isSome
  | _ => .error "TypeError"

/-- Embeds Python `x[k]` for a string key `k`. -/
def pySubscript (x : PyVal) (k : String) : Except String PyVal :=
  match x with
  | .vdict es =>
    match dictFind es k with
    | some v => .ok v
    | none => .error "KeyError"
  | _ => .error "TypeError"

/-- Embeds Python `x.strip()`: only strings have the method. -/
def pyStripV : PyVal → Except String String
  | .vstr s => .ok (pyStrip s)
  | _ => .error "AttributeError"

/-- The guard of the generate handler (src/main.py line 181):
`response and isinstance(response, list) and "generated_text" in response[0]`,
with Python short-circuiting and the possibility of a raised exception. -/
def genCond : Option PyVal → Except String Bool
  | none => .ok false
  | some v =>
    if truthy v = false then .ok false
    else
      match v with
      | .vlist [] => .ok false
      | .vlist (x :: _) => pyContains "generated_text" x
      | _ => .ok false

/-- What the generate handler does with one parsed (or failed) response. -/
inductive GenOutcome where
  | displayed : String → GenOutcome
  | failedMsg : GenOutcome
  | exn : String → GenOutcome
  deriving DecidableEq

/-- Embeds the response branch of the generate handler (src/main.py lines
180-201): on a passing guard it displays
`response[0]["generated_text"].strip()`, otherwise it shows the generic
"Failed to generate analogy" error; a raised exception escapes unhandled. -/
def run_handler (response : Option PyVal) : GenOutcome :=
  match genCond response with
  | .error e => .exn e
  | .ok false => .failedMsg
  | .ok true =>
    match response with
    | some (.vlist (x :: _)) =>
      match pySubscript x "generated_text" with
      | .error e => .exn e
      | .ok v =>
        match pyStripV v with
        | .error e => .exn e
        | .ok s => .displayed s
    | _ => .failedMsg

/-- The first element of a response, when the response is a non-empty
sequence; `none` otherwise. -/
def firstElem? : Option PyVal → Option PyVal
  | some (.vlist (x :: _)) => some x
  | _ => none

/-- What one click of "Generate Analogy" does before the network
(src/main.py lines 174-179): an empty concept is blocked with a warning,
otherwise the prompt is rendered and sent. -/
inductive SubmitOutcome where
  | warned : SubmitOutcome
  | requested : String → SubmitOutcome
  deriving DecidableEq

/-- Embeds the concept validation of the generate button handler:
`if not concept: st.warning(...) else: ... create_analogy_prompt ... query_api`. -/
def generate_click (concept selected_mode difficulty_level context : String) :
    SubmitOutcome :=
  if concept = "" then .warned
  else .requested (create_analogy_prompt concept selected_mode difficulty_level context)

/-- Splits a character list into its lines (separator `'\n'`); a trailing
newline yields a final empty line, and the empty text is one empty line. -/
def linesL : List Char → List (List Char)
  | [] => [[]]
  | c :: cs =>
    if c = '\n' then [] :: linesL cs
    else
      match linesL cs with
      | [] => [[c]]
      | l :: ls => (c :: l) :: ls

/-- The string contains no newline character. -/
@[reducible] def noNL (s : String) : Prop := '\n' ∉ s.data

theorem linesL_ne_nil (l : List Char) : linesL l ≠ [] := by
  match l with
  | [] => simp [linesL]
  | c :: cs =>
    by_cases h : c = '\n'
    · simp [linesL, h]
    · simp only [linesL, if_neg h]
      cases linesL cs <;> simp

@[simp] theorem linesL_nil : linesL [] = [[]] := rfl

@[simp] theorem linesL_nl (cs : List Char) : linesL ('\n' :: cs) = [] :: linesL cs := by
  simp [linesL]

theorem linesL_cons (c : Char) (cs : List Char) (h : ¬ c = '\n') :
    linesL (c :: cs) = (c :: (linesL cs).headI) :: (linesL cs).tail := by
  simp only [linesL, if_neg h]
  rcases hl : linesL cs with - | ⟨l, ls⟩
  · exact absurd hl (linesL_ne_nil cs)
  · simp

theorem linesL_append (xs ys : List Char) (h : '\n' ∉ xs) :
    linesL (xs ++ ys) = (xs ++ (linesL ys).headI) :: (linesL ys).tail := by
  induction xs with
  | nil =>
    rcases hl : linesL ys with - | ⟨l, ls⟩
    · exact absurd hl (linesL_ne_nil ys)
    · simp [hl]
  | cons c cs ih =>
    have hc : ¬ c = '\n' := fun e => h (e ▸ List.mem_cons_self c cs)
    have hcs : '\n' ∉ cs := fun e => h (List.mem_cons_of_mem c e)
    rw [List.cons_append, linesL_cons c (cs ++ ys) hc, ih hcs]
    simp

@[simp] theorem data_nl : ("\n" : String).data = ['\n'] := rfl

/-- Joins lines with newline separators; right inverse of `linesL`. -/
def joinNL : List (List Char) → List Char
  | [] => []
  | [l] => l
  | l :: ls => l ++ '\n' :: joinNL ls

theorem linesL_noNL (l : List Char) (h : '\n' ∉ l) : linesL l = [l] := by
  have := linesL_append l [] h
  simpa using this

theorem linesL_joinNL : ∀ ls : List (List Char), (∀ l ∈ ls, '\n' ∉ l) → ls ≠ [] →
    linesL (joinNL ls) = ls := by
  intro ls
  induction ls with
  | nil => intro _ h; exact absurd rfl h
  | cons l ls ih =>
    intro hmem _
    match ls with
    | [] =>
      simp only [joinNL]
      exact linesL_noNL l (hmem l (List.mem_cons_self l []))
    | l' :: ls' =>
      have hl : '\n' ∉ l := hmem l (List.mem_cons_self _ _)
      show linesL (l ++ '\n' :: joinNL (l' :: ls')) = l :: l' :: ls'
      rw [linesL_append l ('\n' :: joinNL (l' :: ls')) hl, linesL_nl]
      simp only [List.headI, List.tail, List.append_nil]
      rw [ih (fun x hx => hmem x (List.mem_cons_of_mem _ hx)) (by simp)]

theorem startsWithL_imp_take :
    ∀ (p xs : List Char), startsWithL p xs = true → ∀ n, n ≤ p.length → xs.take n = p.take n := by
  intro p
  induction p with
  | nil => intro xs _ n hn; rw [Nat.le_zero.mp hn]; simp
  | cons a ps ih =>
    intro xs hs n hn
    cases xs with
    | nil => simp [startsWithL] at hs
    | cons c cs =>
      simp only [startsWithL, Bool.and_eq_true, beq_iff_eq] at hs
      cases n with
      | zero => simp
      | succ m =>
        simp only [List.take_succ_cons, hs.1]
        rw [ih cs hs.2 m (Nat.le_of_succ_le_succ hn)]

theorem startsWithL_false_of_take (p xs : List Char) (n : Nat) (hn : n ≤ p.length)
    (h : xs.take n ≠ p.take n) : startsWithL p xs = false := by
  cases hs : startsWithL p xs with
  | false => rfl
  | true => exact absurd (startsWithL_imp_take p xs hs n hn) h

theorem startsWithL_false_app (p xs ys : List Char) (n : Nat) (hn : n ≤ p.length)
    (hx : n ≤ xs.length) (h : xs.take n ≠ p.take n) : startsWithL p (xs ++ ys) = false := by
  apply startsWithL_false_of_take p _ n hn
  rw [List.take_append_of_le_length hx]
  exact h

theorem ctx_ne (c : String) (us : List Char) (h : us.take 1 ≠ ['C']) :
    "Context: ".data ++ c.data ≠ us := by
  intro e
  apply h
  rw [← e, List.take_append_of_le_length (by decide : (1 : Nat) ≤ "Context: ".data.length)]
  decide

theorem ctx_ne_app (c : String) (xs ys : List Char) (hx : 1 ≤ xs.length)
    (h : xs.take 1 ≠ ['C']) : "Context: ".data ++ c.data ≠ xs ++ ys := by
  intro e
  apply h
  rw [← List.take_append_of_le_length hx, ← e,
    List.take_append_of_le_length (by decide : (1 : Nat) ≤ "Context: ".data.length)]
  decide

theorem ctx_ne_app2 (c : String) (xs ys : List Char) (hx : 2 ≤ xs.length)
    (h : xs.take 2 ≠ ['C', 'o']) : "Context: ".data ++ c.data ≠ xs ++ ys := by
  intro e
  apply h
  rw [← List.take_append_of_le_length hx, ← e,
    List.take_append_of_le_length (by decide : (2 : Nat) ≤ "Context: ".data.length)]
  decide
set_option maxRecDepth 40000 in
theorem linesSimple (co d c : String) (h1 : noNL co) (h2 : noNL d) (h3 : noNL c) (hc : c ≠ "") :
    linesL (create_analogy_prompt co "Simple Analogy Explanation" d c).data =
      [ "Explain the concept of \x27".data ++ (co.data ++ ("\x27 using a simple, relatable analogy. ".data)),
        "Context: ".data ++ c.data,
        [],
        "Make it ".data ++ (d.data ++ (" level and easy to understand. Use everyday objects or situations that most people are familiar with.".data)),
        [],
        "Format your response as:".data,
        "**Concept:** ".data ++ (co.data),
        "**Analogy:** [Your analogy here]".data,
        "**Explanation:** [How the analogy relates to the concept]".data,
        [] ] := by
  have h1' : '\n' ∉ co.data := h1
  have h2' : '\n' ∉ d.data := h2
  have h3' : '\n' ∉ c.data := h3
  have e : (create_analogy_prompt co "Simple Analogy Explanation" d c).data =
      joinNL [ "Explain the concept of \x27".data ++ (co.data ++ ("\x27 using a simple, relatable analogy. ".data)),
        "Context: ".data ++ c.data,
        [],
        "Make it ".data ++ (d.data ++ (" level and easy to understand. Use everyday objects or situations that most people are familiar with.".data)),
        [],
        "Format your response as:".data,
        "**Concept:** ".data ++ (co.data),
        "**Analogy:** [Your analogy here]".data,
        "**Explanation:** [How the analogy relates to the concept]".data,
        [] ] := by
    simp [create_analogy_prompt, hc, joinNL, String.data_append, List.append_assoc]
  rw [e, linesL_joinNL]
  · intro l hl
    simp only [List.mem_cons, List.not_mem_nil, or_false] at hl
    rcases hl with rfl | rfl | rfl | rfl | rfl | rfl | rfl | rfl | rfl | rfl <;> simp_all [List.mem_append]
  · simp

set_option maxRecDepth 40000 in
theorem linesSimple0 (co d : String) (h1 : noNL co) (h2 : noNL d) :
    linesL (create_analogy_prompt co "Simple Analogy Explanation" d "").data =
      [ "Explain the concept of \x27".data ++ (co.data ++ ("\x27 using a simple, relatable analogy. ".data)),
        [],
        "Make it ".data ++ (d.data ++ (" level and easy to understand. Use everyday objects or situations that most people are familiar with.".data)),
        [],
        "Format your response as:".data,
        "**Concept:** ".data ++ (co.data),
        "**Analogy:** [Your analogy here]".data,
        "**Explanation:** [How the analogy relates to the concept]".data,
        [] ] := by
  have h1' : '\n' ∉ co.data := h1
  have h2' : '\n' ∉ d.data := h2

  have e : (create_analogy_prompt co "Simple Analogy Explanation" d "").data =
      joinNL [ "Explain the concept of \x27".data ++ (co.data ++ ("\x27 using a simple, relatable analogy. ".data)),
        [],
        "Make it ".data ++ (d.data ++ (" level and easy to understand. Use everyday objects or situations that most people are familiar with.".data)),
        [],
        "Format your response as:".data,
        "**Concept:** ".data ++ (co.data),
        "**Analogy:** [Your analogy here]".data,
        "**Explanation:** [How the analogy relates to the concept]".data,
        [] ] := by
    simp [create_analogy_prompt, joinNL, String.data_append, List.append_assoc]
  rw [e, linesL_joinNL]
  · intro l hl
    simp only [List.mem_cons, List.not_mem_nil, or_false] at hl
    rcases hl with rfl | rfl | rfl | rfl | rfl | rfl | rfl | rfl | rfl <;> simp_all [List.mem_append]
  · simp

set_option maxRecDepth 40000 in
theorem linesMulti (co d c : String) (h1 : noNL co) (h2 : noNL d) (h3 : noNL c) (hc : c ≠ "") :
    linesL (create_analogy_prompt co "Multiple Analogies Comparison" d c).data =
      [ "Provide 3 different analogies to explain \x27".data ++ (co.data ++ ("\x27 from different perspectives. ".data)),
        "Context: ".data ++ c.data,
        [],
        "Make it ".data ++ (d.data ++ (" level. Show how each analogy highlights different aspects of the concept.".data)),
        [],
        "Format your response as:".data,
        "**Concept:** ".data ++ (co.data),
        "**Analogy 1:** [First analogy and explanation]".data,
        "**Analogy 2:** [Second analogy and explanation]  ".data,
        "**Analogy 3:** [Third analogy and explanation]".data,
        "**Summary:** [How all analogies work together to explain the concept]".data,
        [] ] := by
  have h1' : '\n' ∉ co.data := h1
  have h2' : '\n' ∉ d.data := h2
  have h3' : '\n' ∉ c.data := h3
  have e : (create_analogy_prompt co "Multiple Analogies Comparison" d c).data =
      joinNL [ "Provide 3 different analogies to explain \x27".data ++ (co.data ++ ("\x27 from different perspectives. ".data)),
        "Context: ".data ++ c.data,
        [],
        "Make it ".data ++ (d.data ++ (" level. Show how each analogy highlights different aspects of the concept.".data)),
        [],
        "Format your response as:".data,
        "**Concept:** ".data ++ (co.data),
        "**Analogy 1:** [First analogy and explanation]".data,
        "**Analogy 2:** [Second analogy and explanation]  ".data,
        "**Analogy 3:** [Third analogy and explanation]".data,
        "**Summary:** [How all analogies work together to explain the concept]".data,
        [] ] := by
    simp [create_analogy_prompt, hc, joinNL, String.data_append, List.append_assoc]
  rw [e, linesL_joinNL]
  · intro l hl
    simp only [List.mem_cons, List.not_mem_nil, or_false] at hl
    rcases hl with rfl | rfl | rfl | rfl | rfl | rfl | rfl | rfl | rfl | rfl | rfl | rfl <;> simp_all [List.mem_append]
  · simp

set_option maxRecDepth 40000 in
theorem linesMulti0 (co d : String) (h1 : noNL co) (h2 : noNL d) :
    linesL (create_analogy_prompt co "Multiple Analogies Comparison" d "").data =
      [ "Provide 3 different analogies to explain \x27".data ++ (co.data ++ ("\x27 from different perspectives. ".data)),
        [],
        "Make it ".data ++ (d.data ++ (" level. Show how each analogy highlights different aspects of the concept.".data)),
        [],
        "Format your response as:".data,
        "**Concept:** ".data ++ (co.data),
        "**Analogy 1:** [First analogy and explanation]".data,
        "**Analogy 2:** [Second analogy and explanation]  ".data,
        "**Analogy 3:** [Third analogy and explanation]".data,
        "**Summary:** [How all analogies work together to explain the concept]".data,
        [] ] := by
  have h1' : '\n' ∉ co.data := h1
  have h2' : '\n' ∉ d.data := h2

  have e : (create_analogy_prompt co "Multiple Analogies Comparison" d "").data =
      joinNL [ "Provide 3 different analogies to explain \x27".data ++ (co.data ++ ("\x27 from different perspectives. ".data)),
        [],
        "Make it ".data ++ (d.data ++ (" level. Show how each analogy highlights different aspects of the concept.".data)),
        [],
        "Format your response as:".data,
        "**Concept:** ".data ++ (co.data),
        "**Analogy 1:** [First analogy and explanation]".data,
        "**Analogy 2:** [Second analogy and explanation]  ".data,
        "**Analogy 3:** [Third analogy and explanation]".data,
        "**Summary:** [How all analogies work together to explain the concept]".data,
        [] ] := by
    simp [create_analogy_prompt, joinNL, String.data_append, List.append_assoc]
  rw [e, linesL_joinNL]
  · intro l hl
    simp only [List.mem_cons, List.not_mem_nil, or_false] at hl
    rcases hl with rfl | rfl | rfl | rfl | rfl | rfl | rfl | rfl | rfl | rfl | rfl <;> simp_all [List.mem_append]
  · simp

set_option maxRecDepth 40000 in
theorem linesInter (co d c : String) (h1 : noNL co) (h2 : noNL d) (h3 : noNL c) (hc : c ≠ "") :
    linesL (create_analogy_prompt co "Interactive Analogy Building" d c).data =
      [ "Help me build an analogy for \x27".data ++ (co.data ++ ("\x27 step by step. ".data)),
        "Context: ".data ++ c.data,
        [],
        "Make it ".data ++ (d.data ++ (" level. Start by asking what familiar thing or situation I\x27d like to compare it to, then guide me through building the analogy.".data)),
        [],
        "Start with: \"Let\x27s build an analogy for ".data ++ (co.data ++ (" together! What\x27s something from your daily life that you\x27re very familiar with that we could potentially compare to ".data ++ (co.data ++ ("?\"".data)))),
        [] ] := by
  have h1' : '\n' ∉ co.data := h1
  have h2' : '\n' ∉ d.data := h2
  have h3' : '\n' ∉ c.data := h3
  have e : (create_analogy_prompt co "Interactive Analogy Building" d c).data =
      joinNL [ "Help me build an analogy for \x27".data ++ (co.data ++ ("\x27 step by step. ".data)),
        "Context: ".data ++ c.data,
        [],
        "Make it ".data ++ (d.data ++ (" level. Start by asking what familiar thing or situation I\x27d like to compare it to, then guide me through building the analogy.".data)),
        [],
        "Start with: \"Let\x27s build an analogy for ".data ++ (co.data ++ (" together! What\x27s something from your daily life that you\x27re very familiar with that we could potentially compare to ".data ++ (co.data ++ ("?\"".data)))),
        [] ] := by
    simp [create_analogy_prompt, hc, joinNL, String.data_append, List.append_assoc]
  rw [e, linesL_joinNL]
  · intro l hl
    simp only [List.mem_cons, List.not_mem_nil, or_false] at hl
    rcases hl with rfl | rfl | rfl | rfl | rfl | rfl | rfl <;> simp_all [List.mem_append]
  · simp

set_option maxRecDepth 40000 in
theorem linesInter0 (co d : String) (h1 : noNL co) (h2 : noNL d) :
    linesL (create_analogy_prompt co "Interactive Analogy Building" d "").data =
      [ "Help me build an analogy for \x27".data ++ (co.data ++ ("\x27 step by step. ".data)),
        [],
        "Make it ".data ++ (d.data ++ (" level. Start by asking what familiar thing or situation I\x27d like to compare it to, then guide me through building the analogy.".data)),
        [],
        "Start with: \"Let\x27s build an analogy for ".data ++ (co.data ++ (" together! What\x27s something from your daily life that you\x27re very familiar with that we could potentially compare to ".data ++ (co.data ++ ("?\"".data)))),
        [] ] := by
  have h1' : '\n' ∉ co.data := h1
  have h2' : '\n' ∉ d.data := h2

  have e : (create_analogy_prompt co "Interactive Analogy Building" d "").data =
      joinNL [ "Help me build an analogy for \x27".data ++ (co.data ++ ("\x27 step by step. ".data)),
        [],
        "Make it ".data ++ (d.data ++ (" level. Start by asking what familiar thing or situation I\x27d like to compare it to, then guide me through building the analogy.".data)),
        [],
        "Start with: \"Let\x27s build an analogy for ".data ++ (co.data ++ (" together! What\x27s something from your daily life that you\x27re very familiar with that we could potentially compare to ".data ++ (co.data ++ ("?\"".data)))),
        [] ] := by
    simp [create_analogy_prompt, joinNL, String.data_append, List.append_assoc]
  rw [e, linesL_joinNL]
  · intro l hl
    simp only [List.mem_cons, List.not_mem_nil, or_false] at hl
    rcases hl with rfl | rfl | rfl | rfl | rfl | rfl <;> simp_all [List.mem_append]
  · simp

set_option maxRecDepth 40000 in
theorem linesProblem (co d c : String) (h1 : noNL co) (h2 : noNL d) (h3 : noNL c) (hc : c ≠ "") :
    linesL (create_analogy_prompt co "Problem-Solving with Analogies" d c).data =
      [ "I need to solve a problem or understand a challenge related to \x27".data ++ (co.data ++ ("\x27. ".data)),
        "Context: ".data ++ c.data,
        [],
        "Make it ".data ++ (d.data ++ (" level. Use analogies to help me understand the problem and potential solutions.".data)),
        [],
        "Format your response as:".data,
        "**Problem/Challenge:** [Identify the key challenge with ".data ++ (co.data ++ ("]".data)),
        "**Analogy:** [Use an analogy to explain the problem]".data,
        "**Solution Approach:** [Use the same analogy to suggest solutions]".data,
        "**Application:** [How to apply this understanding practically]".data,
        [] ] := by
  have h1' : '\n' ∉ co.data := h1
  have h2' : '\n' ∉ d.data := h2
  have h3' : '\n' ∉ c.data := h3
  have e : (create_analogy_prompt co "Problem-Solving with Analogies" d c).data =
      joinNL [ "I need to solve a problem or understand a challenge related to \x27".data ++ (co.data ++ ("\x27. ".data)),
        "Context: ".data ++ c.data,
        [],
        "Make it ".data ++ (d.data ++ (" level. Use analogies to help me understand the problem and potential solutions.".data)),
        [],
        "Format your response as:".data,
        "**Problem/Challenge:** [Identify the key challenge with ".data ++ (co.data ++ ("]".data)),
        "**Analogy:** [Use an analogy to explain the problem]".data,
        "**Solution Approach:** [Use the same analogy to suggest solutions]".data,
        "**Application:** [How to apply this understanding practically]".data,
        [] ] := by
    simp [create_analogy_prompt, hc, joinNL, String.data_append, List.append_assoc]
  rw [e, linesL_joinNL]
  · intro l hl
    simp only [List.mem_cons, List.not_mem_nil, or_false] at hl
    rcases hl with rfl | rfl | rfl | rfl | rfl | rfl | rfl | rfl | rfl | rfl | rfl <;> simp_all [List.mem_append]
  · simp

set_option maxRecDepth 40000 in
theorem linesProblem0 (co d : String) (h1 : noNL co) (h2 : noNL d) :
    linesL (create_analogy_prompt co "Problem-Solving with Analogies" d "").data =
      [ "I need to solve a problem or understand a challenge related to \x27".data ++ (co.data ++ ("\x27. ".data)),
        [],
        "Make it ".data ++ (d.data ++ (" level. Use analogies to help me understand the problem and potential solutions.".data)),
        [],
        "Format your response as:".data,
        "**Problem/Challenge:** [Identify the key challenge with ".data ++ (co.data ++ ("]".data)),
        "**Analogy:** [Use an analogy to explain the problem]".data,
        "**Solution Approach:** [Use the same analogy to suggest solutions]".data,
        "**Application:** [How to apply this understanding practically]".data,
        [] ] := by
  have h1' : '\n' ∉ co.data := h1
  have h2' : '\n' ∉ d.data := h2

  have e : (create_analogy_prompt co "Problem-Solving with Analogies" d "").data =
      joinNL [ "I need to solve a problem or understand a challenge related to \x27".data ++ (co.data ++ ("\x27. ".data)),
        [],
        "Make it ".data ++ (d.data ++ (" level. Use analogies to help me understand the problem and potential solutions.".data)),
        [],
        "Format your response as:".data,
        "**Problem/Challenge:** [Identify the key challenge with ".data ++ (co.data ++ ("]".data)),
        "**Analogy:** [Use an analogy to explain the problem]".data,
        "**Solution Approach:** [Use the same analogy to suggest solutions]".data,
        "**Application:** [How to apply this understanding practically]".data,
        [] ] := by
    simp [create_analogy_prompt, joinNL, String.data_append, List.append_assoc]
  rw [e, linesL_joinNL]
  · intro l hl
    simp only [List.mem_cons, List.not_mem_nil, or_false] at hl
    rcases hl with rfl | rfl | rfl | rfl | rfl | rfl | rfl | rfl | rfl | rfl <;> simp_all [List.mem_append]
  · simp

set_option maxRecDepth 40000 in
theorem linesStory (co d c : String) (h1 : noNL co) (h2 : noNL d) (h3 : noNL c) (hc : c ≠ "") :
    linesL (create_analogy_prompt co "Story-Based Learning" d c).data =
      [ "Create an engaging story that naturally incorporates and explains \x27".data ++ (co.data ++ ("\x27 through analogies. ".data)),
        "Context: ".data ++ c.data,
        [],
        "Make it ".data ++ (d.data ++ (" level. The story should make the concept memorable and easy to understand.".data)),
        [],
        "Format your response as:".data,
        "**Story Title:** [Creative title]".data,
        "**Story:** [Your engaging story that explains ".data ++ (co.data ++ ("]".data)),
        "**Key Takeaways:** [Main points about ".data ++ (co.data ++ (" from the story]".data)),
        [] ] := by
  have h1' : '\n' ∉ co.data := h1
  have h2' : '\n' ∉ d.data := h2
  have h3' : '\n' ∉ c.data := h3
  have e : (create_analogy_prompt co "Story-Based Learning" d c).data =
      joinNL [ "Create an engaging story that naturally incorporates and explains \x27".data ++ (co.data ++ ("\x27 through analogies. ".data)),
        "Context: ".data ++ c.data,
        [],
        "Make it ".data ++ (d.data ++ (" level. The story should make the concept memorable and easy to understand.".data)),
        [],
        "Format your response as:".data,
        "**Story Title:** [Creative title]".data,
        "**Story:** [Your engaging story that explains ".data ++ (co.data ++ ("]".data)),
        "**Key Takeaways:** [Main points about ".data ++ (co.data ++ (" from the story]".data)),
        [] ] := by
    simp [create_analogy_prompt, hc, joinNL, String.data_append, List.append_assoc]
  rw [e, linesL_joinNL]
  · intro l hl
    simp only [List.mem_cons, List.not_mem_nil, or_false] at hl
    rcases hl with rfl | rfl | rfl | rfl | rfl | rfl | rfl | rfl | rfl | rfl <;> simp_all [List.mem_append]
  · simp

set_option maxRecDepth 40000 in
theorem linesStory0 (co d : String) (h1 : noNL co) (h2 : noNL d) :
    linesL (create_analogy_prompt co "Story-Based Learning" d "").data =
      [ "Create an engaging story that naturally incorporates and explains \x27".data ++ (co.data ++ ("\x27 through analogies. ".data)),
        [],
        "Make it ".data ++ (d.data ++ (" level. The story should make the concept memorable and easy to understand.".data)),
        [],
        "Format your response as:".data,
        "**Story Title:** [Creative title]".data,
        "**Story:** [Your engaging story that explains ".data ++ (co.data ++ ("]".data)),
        "**Key Takeaways:** [Main points about ".data ++ (co.data ++ (" from the story]".data)),
        [] ] := by
  have h1' : '\n' ∉ co.data := h1
  have h2' : '\n' ∉ d.data := h2

  have e : (create_analogy_prompt co "Story-Based Learning" d "").data =
      joinNL [ "Create an engaging story that naturally incorporates and explains \x27".data ++ (co.data ++ ("\x27 through analogies. ".data)),
        [],
        "Make it ".data ++ (d.data ++ (" level. The story should make the concept memorable and easy to understand.".data)),
        [],
        "Format your response as:".data,
        "**Story Title:** [Creative title]".data,
        "**Story:** [Your engaging story that explains ".data ++ (co.data ++ ("]".data)),
        "**Key Takeaways:** [Main points about ".data ++ (co.data ++ (" from the story]".data)),
        [] ] := by
    simp [create_analogy_prompt, joinNL, String.data_append, List.append_assoc]
  rw [e, linesL_joinNL]
  · intro l hl
    simp only [List.mem_cons, List.not_mem_nil, or_false] at hl
    rcases hl with rfl | rfl | rfl | rfl | rfl | rfl | rfl | rfl | rfl <;> simp_all [List.mem_append]
  · simp

theorem prompt_unmatched (co mode d c : String)
    (n1 : mode ≠ "Simple Analogy Explanation")
    (n2 : mode ≠ "Multiple Analogies Comparison")
    (n3 : mode ≠ "Interactive Analogy Building")
    (n4 : mode ≠ "Problem-Solving with Analogies") :
    create_analogy_prompt co mode d c = create_analogy_prompt co "Story-Based Learning" d c := by
  simp only [create_analogy_prompt, if_neg n1, if_neg n2, if_neg n3, if_neg n4,
    if_neg (by decide : ¬ ("Story-Based Learning" : String) = "Simple Analogy Explanation"),
    if_neg (by decide : ¬ ("Story-Based Learning" : String) = "Multiple Analogies Comparison"),
    if_neg (by decide : ¬ ("Story-Based Learning" : String) = "Interactive Analogy Building"),
    if_neg (by decide : ¬ ("Story-Based Learning" : String) = "Problem-Solving with Analogies")]

/-- C2: for the empty credential string the credential gate stops the
script before `get_headers` can run, so the session produces no header set
and in particular no Authorization header. -/
theorem c2_empty_credential_no_headers : session_headers "" = none := rfl

/-- C5: for every non-empty credential string the header builder returns
exactly the two-entry map with the Bearer Authorization header and the JSON
Content-Type header. -/
theorem c5_nonempty_credential_headers (t : String) (h : t ≠ "") :
    session_headers t =
      some [("Authorization", "Bearer " ++ t), ("Content-Type", "application/json")] := by
  simp [session_headers, token_gate, get_headers, h]

/-- Witness for C5 at the concrete credential "abc123". -/
theorem c5_nonempty_credential_headers_witness :
    ("abc123" : String) ≠ "" ∧
      session_headers "abc123" =
        some [("Authorization", "Bearer " ++ "abc123"), ("Content-Type", "application/json")] :=
  ⟨by decide, c5_nonempty_credential_headers "abc123" (by decide)⟩

/-- C9: when the concept is empty at submission time the click is blocked
with the user-visible warning; no prompt is rendered and no request is
issued. -/
theorem c9_empty_concept_blocked (mode difficulty context : String) :
    generate_click "" mode difficulty context = .warned ∧
      ∀ p, generate_click "" mode difficulty context ≠ .requested p := by
  refine ⟨rfl, fun p h => ?_⟩
  simp [generate_click] at h

/-- C3: every mode string other than the four explicitly matched modes
renders exactly the prompt of "Story-Based Learning" for the same concept,
difficulty and context; rendering is total and so never fails. -/
theorem c3_unrecognized_mode_is_story (mode co d c : String)
    (n1 : mode ≠ "Simple Analogy Explanation")
    (n2 : mode ≠ "Multiple Analogies Comparison")
    (n3 : mode ≠ "Interactive Analogy Building")
    (n4 : mode ≠ "Problem-Solving with Analogies") :
    create_analogy_prompt co mode d c = create_analogy_prompt co "Story-Based Learning" d c :=
  prompt_unmatched co mode d c n1 n2 n3 n4

/-- Witness for C3 at the concrete unrecognized mode "Socratic Quiz". -/
theorem c3_unrecognized_mode_is_story_witness :
    ("Socratic Quiz" : String) ≠ "Simple Analogy Explanation" ∧
      create_analogy_prompt "Gravity" "Socratic Quiz" "Beginner" "for kids" =
        create_analogy_prompt "Gravity" "Story-Based Learning" "Beginner" "for kids" :=
  ⟨by decide, c3_unrecognized_mode_is_story "Socratic Quiz" "Gravity" "Beginner" "for kids"
    (by decide) (by decide) (by decide) (by decide)⟩

set_option maxRecDepth 100000 in
/-- C6: the "Simple Analogy Explanation" prompt for concept
"Photosynthesis", difficulty "Intermediate" and empty context contains the
literal header marker "**Concept:** Photosynthesis" and contains no
"Context:" text at all. -/
theorem c6_photosynthesis_round_trip :
    occursInL "**Concept:** Photosynthesis".data
        (create_analogy_prompt "Photosynthesis" "Simple Analogy Explanation" "Intermediate" "").data
      = true ∧
    occursInL "Context:".data
        (create_analogy_prompt "Photosynthesis" "Simple Analogy Explanation" "Intermediate" "").data
      = false := by
  constructor <;> decide

theorem genCond_cons (x : PyVal) (xs : List PyVal) :
    genCond (some (.vlist (x :: xs))) = pyContains "generated_text" x := rfl

/-- C10: the handler outcome for a non-empty list response depends only on
the first element: equal first elements give equal outcomes, whatever the
later elements are. -/
theorem c10_outcome_depends_only_on_first (x : PyVal) (xs ys : List PyVal) :
    run_handler (some (.vlist (x :: xs))) = run_handler (some (.vlist (x :: ys))) := by
  cases hx : pyContains "generated_text" x with
  | error e => simp [run_handler, genCond_cons, hx]
  | ok b =>
    cases b with
    | false => simp [run_handler, genCond_cons, hx]
    | true => simp [run_handler, genCond_cons, hx]

theorem dropWhile_idem (p : Char → Bool) (l : List Char) :
    (l.dropWhile p).dropWhile p = l.dropWhile p := by
  induction l with
  | nil => rfl
  | cons c cs ih => by_cases hp : p c <;> simp [List.dropWhile_cons, hp, ih]

theorem head_dropWhile_false (p : Char → Bool) (l : List Char) (a : Char)
    (h : (l.dropWhile p).head? = some a) : p a = false := by
  induction l with
  | nil => simp at h
  | cons c cs ih =>
    by_cases hp : p c
    · exact ih (by simpa [List.dropWhile_cons, hp] using h)
    · simp only [List.dropWhile_cons, if_neg hp, List.head?_cons, Option.some.injEq] at h
      subst h
      exact Bool.eq_false_iff.mpr hp

theorem dropWhile_head_fix (p : Char → Bool) (l : List Char)
    (h : ∀ a, l.head? = some a → p a = false) : l.dropWhile p = l := by
  cases l with
  | nil => rfl
  | cons c cs =>
    have := h c rfl
    simp [List.dropWhile_cons, this]

theorem dropWhile_suffix_exists (p : Char → Bool) (l : List Char) :
    ∃ z, z ++ l.dropWhile p = l := by
  induction l with
  | nil => exact ⟨[], rfl⟩
  | cons c cs ih =>
    by_cases hp : p c
    · obtain ⟨z, hz⟩ := ih
      exact ⟨c :: z, by simp [List.dropWhile_cons, hp, hz]⟩
    · exact ⟨[], by simp [List.dropWhile_cons, hp]⟩

theorem pyStrip_data (s : String) :
    (pyStrip s).data = ((s.data.dropWhile isPySpace).reverse.dropWhile isPySpace).reverse := rfl

theorem pyStrip_trimmed_end (s : String) :
    (pyStrip s).data.reverse.dropWhile isPySpace = (pyStrip s).data.reverse := by
  rw [pyStrip_data, List.reverse_reverse]
  exact dropWhile_idem isPySpace _

theorem pyStrip_trimmed_front (s : String) :
    (pyStrip s).data.dropWhile isPySpace = (pyStrip s).data := by
  apply dropWhile_head_fix
  intro a ha
  rw [pyStrip_data] at ha
  obtain ⟨z, hz⟩ := dropWhile_suffix_exists isPySpace (s.data.dropWhile isPySpace).reverse
  have hAeq : s.data.dropWhile isPySpace =
      ((s.data.dropWhile isPySpace).reverse.dropWhile isPySpace).reverse ++ z.reverse := by
    have := congrArg List.reverse hz
    simpa [List.reverse_append] using this.symm
  have hne : ((s.data.dropWhile isPySpace).reverse.dropWhile isPySpace).reverse ≠ [] := by
    intro e
    rw [e] at ha
    simp at ha
  have hhead : (s.data.dropWhile isPySpace).head? = some a := by
    rw [hAeq, List.head?_append_of_ne_nil _ hne]
    exact ha
  exact head_dropWhile_false isPySpace s.data a hhead

theorem pyStrip_idem (s : String) : pyStrip (pyStrip s) = pyStrip s := by
  show String.mk _ = pyStrip s
  rw [show pyStrip s = String.mk (pyStrip s).data from rfl]
  congr 1
  rw [pyStrip_trimmed_front, pyStrip_trimmed_end, pyStrip_data, List.reverse_reverse]

theorem run_handler_dict_found (es : List (String × PyVal)) (rest : List PyVal) (s : String)
    (hf : dictFind es "generated_text" = some (.vstr s)) :
    run_handler (some (.vlist (.vdict es :: rest))) = .displayed (pyStrip s) := by
  have hc : genCond (some (.vlist (.vdict es :: rest))) = .ok true := by
    rw [genCond_cons]
    simp [pyContains, hf]
  simp [run_handler, hc, pySubscript, hf, pyStripV]

theorem run_handler_dict_missing (es : List (String × PyVal)) (rest : List PyVal)
    (hf : dictFind es "generated_text" = none) :
    run_handler (some (.vlist (.vdict es :: rest))) = .failedMsg := by
  have hc : genCond (some (.vlist (.vdict es :: rest))) = .ok false := by
    rw [genCond_cons]
    simp [pyContains, hf]
  simp [run_handler, hc]

/-- C8: successful extraction strips surrounding whitespace: a response
whose first element maps generated_text to a string displays exactly the
stripped string, the stripped string is strip-fixed (no surrounding
whitespace remains), and in particular the response
`[{"generated_text": "  hello  "}]` displays "hello". -/
theorem c8_extraction_strips (es : List (String × PyVal)) (rest : List PyVal) (s : String)
    (hf : dictFind es "generated_text" = some (.vstr s)) :
    run_handler (some (.vlist (.vdict es :: rest))) = .displayed (pyStrip s) ∧
      pyStrip (pyStrip s) = pyStrip s ∧
      run_handler (some (.vlist [.vdict [("generated_text", .vstr "  hello  ")]])) =
        .displayed "hello" :=
  ⟨run_handler_dict_found es rest s hf, pyStrip_idem s, by decide⟩

/-- Witness for C8 at the concrete response `[{"generated_text": "  hello  "}]`. -/
theorem c8_extraction_strips_witness :
    dictFind [("generated_text", PyVal.vstr "  hello  ")] "generated_text" =
        some (.vstr "  hello  ") ∧
      run_handler (some (.vlist [.vdict [("generated_text", .vstr "  hello  ")]])) =
        .displayed (pyStrip "  hello  ") :=
  ⟨rfl, (c8_extraction_strips [("generated_text", .vstr "  hello  ")] [] "  hello  " rfl).1⟩

theorem run_handler_dict_other (es : List (String × PyVal)) (rest : List PyVal) (v : PyVal)
    (hf : dictFind es "generated_text" = some v) :
    run_handler (some (.vlist (.vdict es :: rest))) =
      match pyStripV v with
      | .error e => .exn e
      | .ok s => .displayed s := by
  have hc : genCond (some (.vlist (.vdict es :: rest))) = .ok true := by
    rw [genCond_cons]
    simp [pyContains, hf]
  simp [run_handler, hc, pySubscript, hf]

theorem run_handler_cons_not_displayed (x : PyVal) (rest : List PyVal)
    (hx : ∀ es, x ≠ .vdict es) :
    ∀ s, run_handler (some (.vlist (x :: rest))) ≠ .displayed s := by
  intro s h
  cases x with
  | vdict es => exact hx es rfl
  | vnull => simp [run_handler, genCond_cons, pyContains] at h
  | vbool b => simp [run_handler, genCond_cons, pyContains] at h
  | vnum n => simp [run_handler, genCond_cons, pyContains] at h
  | vstr t =>
    cases hb : occursInL "generated_text".data t.data <;>
      simp [run_handler, genCond_cons, pyContains, hb, pySubscript] at h
  | vlist l =>
    cases hb : l.any (fun e => match e with | .vstr s => s == "generated_text" | _ => false) <;>
      simp [run_handler, genCond_cons, pyContains, hb, pySubscript] at h

/-- C1 counterexample: the parsed generation-shape response `[5]` is a
non-empty sequence whose first element lacks the generated_text field, yet
the handler raises an unhandled TypeError (from `"generated_text" in 5`)
rather than reaching the generic ExtractionError branch. -/
theorem c1_counterexample :
    run_handler (some (.vlist [.vnum 5])) = .exn "TypeError" ∧
      run_handler (some (.vlist [.vnum 5])) ≠ .failedMsg := by
  constructor
  · rfl
  · decide

/-- C1 (amended): extraction succeeds exactly when the response is a
non-empty sequence whose first element is an object mapping generated_text
to a string; a response that is not a non-empty sequence, or whose first
element is an object lacking the field, takes the generic ExtractionError
branch.  For a non-empty sequence whose first element is not such an
object the no-unhandled-exception guarantee does not hold in general: the
counterexample `[5]` raises a TypeError. -/
theorem c1_amended_extraction (r : Option PyVal) :
    (firstElem? r = none → run_handler r = .failedMsg) ∧
    (∀ es, firstElem? r = some (.vdict es) → dictFind es "generated_text" = none →
      run_handler r = .failedMsg) ∧
    (∀ es s, firstElem? r = some (.vdict es) →
      dictFind es "generated_text" = some (.vstr s) →
      run_handler r = .displayed (pyStrip s)) ∧
    (∀ s, run_handler r = .displayed s →
      ∃ es t, firstElem? r = some (.vdict es) ∧
        dictFind es "generated_text" = some (.vstr t) ∧ s = pyStrip t) := by
  match r with
  | none =>
    exact ⟨fun _ => rfl, fun es h => by simp [firstElem?] at h,
      fun es s h => by simp [firstElem?] at h,
      fun s h => by simp [run_handler, genCond] at h⟩
  | some .vnull =>
    exact ⟨fun _ => rfl, fun es h => by simp [firstElem?] at h,
      fun es s h => by simp [firstElem?] at h,
      fun s h => by simp [run_handler, genCond, truthy] at h⟩
  | some (.vbool b) =>
    refine ⟨fun _ => ?_, fun es h => by simp [firstElem?] at h,
      fun es s h => by simp [firstElem?] at h,
      fun s h => ?_⟩
    · cases b <;> rfl
    · cases b <;> simp [run_handler, genCond, truthy] at h
  | some (.vnum n) =>
    refine ⟨fun _ => ?_, fun es h => by simp [firstElem?] at h,
      fun es s h => by simp [firstElem?] at h,
      fun s h => ?_⟩
    · cases hb : (n != 0) <;> simp [run_handler, genCond, truthy, hb]
    · cases hb : (n != 0) <;> simp [run_handler, genCond, truthy, hb] at h
  | some (.vstr t) =>
    refine ⟨fun _ => ?_, fun es h => by simp [firstElem?] at h,
      fun es s h => by simp [firstElem?] at h,
      fun s h => ?_⟩
    · cases hb : (t != "") <;> simp [run_handler, genCond, truthy, hb]
    · cases hb : (t != "") <;> simp [run_handler, genCond, truthy, hb] at h
  | some (.vlist []) =>
    exact ⟨fun _ => rfl, fun es h => by simp [firstElem?] at h,
      fun es s h => by simp [firstElem?] at h,
      fun s h => by simp [run_handler, genCond, truthy] at h⟩
  | some (.vdict es) =>
    refine ⟨fun _ => ?_, fun es' h => by simp [firstElem?] at h,
      fun es' s h => by simp [firstElem?] at h,
      fun s h => ?_⟩
    · cases hb : es.isEmpty <;> simp [run_handler, genCond, truthy, hb]
    · cases hb : es.isEmpty <;> simp [run_handler, genCond, truthy, hb] at h
  | some (.vlist (.vdict es :: rest)) =>
    refine ⟨fun h => by simp [firstElem?] at h, ?_, ?_, ?_⟩
    · intro es' h hf
      have : es' = es := by simpa [firstElem?] using h.symm
      subst this
      exact run_handler_dict_missing _ rest hf
    · intro es' s h hf
      have : es' = es := by simpa [firstElem?] using h.symm
      subst this
      exact run_handler_dict_found _ rest s hf
    · intro s h
      cases hf : dictFind es "generated_text" with
      | none =>
        rw [run_handler_dict_missing es rest hf] at h
        simp at h
      | some v =>
        rw [run_handler_dict_other es rest v hf] at h
        cases v <;> simp [pyStripV] at h
        case vstr t => exact ⟨es, t, rfl, hf, h.symm⟩
  | some (.vlist (.vnull :: rest)) =>
    exact ⟨fun h => by simp [firstElem?] at h, fun es h => by simp [firstElem?] at h,
      fun es s h => by simp [firstElem?] at h,
      fun s h => absurd h (run_handler_cons_not_displayed _ rest (by simp) s)⟩
  | some (.vlist (.vbool b :: rest)) =>
    exact ⟨fun h => by simp [firstElem?] at h, fun es h => by simp [firstElem?] at h,
      fun es s h => by simp [firstElem?] at h,
      fun s h => absurd h (run_handler_cons_not_displayed _ rest (by simp) s)⟩
  | some (.vlist (.vnum n :: rest)) =>
    exact ⟨fun h => by simp [firstElem?] at h, fun es h => by simp [firstElem?] at h,
      fun es s h => by simp [firstElem?] at h,
      fun s h => absurd h (run_handler_cons_not_displayed _ rest (by simp) s)⟩
  | some (.vlist (.vstr t :: rest)) =>
    exact ⟨fun h => by simp [firstElem?] at h, fun es h => by simp [firstElem?] at h,
      fun es s h => by simp [firstElem?] at h,
      fun s h => absurd h (run_handler_cons_not_displayed _ rest (by simp) s)⟩
  | some (.vlist (.vlist l :: rest)) =>
    exact ⟨fun h => by simp [firstElem?] at h, fun es h => by simp [firstElem?] at h,
      fun es s h => by simp [firstElem?] at h,
      fun s h => absurd h (run_handler_cons_not_displayed _ rest (by simp) s)⟩

/-- Witness for C1 at concrete inputs covering each guarded case. -/
theorem c1_amended_extraction_witness :
    run_handler (some (.vstr "nope")) = .failedMsg ∧
      run_handler (some (.vlist [.vdict [("other", .vnull)]])) = .failedMsg ∧
      run_handler (some (.vlist [.vdict [("generated_text", .vstr " hi ")]])) =
        .displayed (pyStrip " hi ") :=
  ⟨(c1_amended_extraction (some (.vstr "nope"))).1 rfl,
   (c1_amended_extraction (some (.vlist [.vdict [("other", .vnull)]]))).2.1 _ rfl rfl,
   (c1_amended_extraction (some (.vlist [.vdict [("generated_text", .vstr " hi ")]]))).2.2.1 _ _ rfl rfl⟩

set_option maxRecDepth 100000 in
/-- C4 (amended): for newline-free concept, difficulty and context: when
context is non-empty the rendered prompt contains the line
"Context: {context}" exactly once, namely as its second line -- directly
after the template's opening line and before the rest of the mode-specific
body; when context is empty no line of the prompt starts with "Context:". -/
theorem c4_amended_context_line (mode co d c : String)
    (h1 : noNL co) (h2 : noNL d) (h3 : noNL c) :
    (c ≠ "" → ∃ l1 rest,
        linesL (create_analogy_prompt co mode d c).data =
          l1 :: ("Context: ".data ++ c.data) :: rest ∧
        "Context: ".data ++ c.data ≠ l1 ∧
        "Context: ".data ++ c.data ∉ rest) ∧
    (c = "" → ∀ l ∈ linesL (create_analogy_prompt co mode d c).data,
        startsWithL "Context:".data l = false) := by
  by_cases m1 : mode = "Simple Analogy Explanation"
  · subst m1
    constructor
    · intro hc
      rw [linesSimple co d c h1 h2 h3 hc]
      refine ⟨_, _, rfl, ?_, ?_⟩
      · exact ctx_ne_app c _ _ (by decide) (by decide)
      · simp only [List.mem_cons, List.not_mem_nil, or_false, not_or]
        exact ⟨
          ctx_ne c _ (by decide),
          ctx_ne_app c _ _ (by decide) (by decide),
          ctx_ne c _ (by decide),
          ctx_ne c _ (by decide),
          ctx_ne_app c _ _ (by decide) (by decide),
          ctx_ne c _ (by decide),
          ctx_ne c _ (by decide),
          ctx_ne c _ (by decide)⟩
    · intro hc
      subst hc
      rw [linesSimple0 co d h1 h2]
      intro l hl
      simp only [List.mem_cons, List.not_mem_nil, or_false] at hl
      rcases hl with rfl | rfl | rfl | rfl | rfl | rfl | rfl | rfl | rfl
      · exact startsWithL_false_app _ _ _ 1 (by decide) (by decide) (by decide)
      · exact startsWithL_false_of_take _ _ 1 (by decide) (by decide)
      · exact startsWithL_false_app _ _ _ 1 (by decide) (by decide) (by decide)
      · exact startsWithL_false_of_take _ _ 1 (by decide) (by decide)
      · exact startsWithL_false_of_take _ _ 1 (by decide) (by decide)
      · exact startsWithL_false_app _ _ _ 1 (by decide) (by decide) (by decide)
      · exact startsWithL_false_of_take _ _ 1 (by decide) (by decide)
      · exact startsWithL_false_of_take _ _ 1 (by decide) (by decide)
      · exact startsWithL_false_of_take _ _ 1 (by decide) (by decide)
  · by_cases m2 : mode = "Multiple Analogies Comparison"
    · subst m2
      constructor
      · intro hc
        rw [linesMulti co d c h1 h2 h3 hc]
        refine ⟨_, _, rfl, ?_, ?_⟩
        · exact ctx_ne_app c _ _ (by decide) (by decide)
        · simp only [List.mem_cons, List.not_mem_nil, or_false, not_or]
          exact ⟨
            ctx_ne c _ (by decide),
            ctx_ne_app c _ _ (by decide) (by decide),
            ctx_ne c _ (by decide),
            ctx_ne c _ (by decide),
            ctx_ne_app c _ _ (by decide) (by decide),
            ctx_ne c _ (by decide),
            ctx_ne c _ (by decide),
            ctx_ne c _ (by decide),
            ctx_ne c _ (by decide),
            ctx_ne c _ (by decide)⟩
      · intro hc
        subst hc
        rw [linesMulti0 co d h1 h2]
        intro l hl
        simp only [List.mem_cons, List.not_mem_nil, or_false] at hl
        rcases hl with rfl | rfl | rfl | rfl | rfl | rfl | rfl | rfl | rfl | rfl | rfl
        · exact startsWithL_false_app _ _ _ 1 (by decide) (by decide) (by decide)
        · exact startsWithL_false_of_take _ _ 1 (by decide) (by decide)
        · exact startsWithL_false_app _ _ _ 1 (by decide) (by decide) (by decide)
        · exact startsWithL_false_of_take _ _ 1 (by decide) (by decide)
        · exact startsWithL_false_of_take _ _ 1 (by decide) (by decide)
        · exact startsWithL_false_app _ _ _ 1 (by decide) (by decide) (by decide)
        · exact startsWithL_false_of_take _ _ 1 (by decide) (by decide)
        · exact startsWithL_false_of_take _ _ 1 (by decide) (by decide)
        · exact startsWithL_false_of_take _ _ 1 (by decide) (by decide)
        · exact startsWithL_false_of_take _ _ 1 (by decide) (by decide)
        · exact startsWithL_false_of_take _ _ 1 (by decide) (by decide)
    · by_cases m3 : mode = "Interactive Analogy Building"
      · subst m3
        constructor
        · intro hc
          rw [linesInter co d c h1 h2 h3 hc]
          refine ⟨_, _, rfl, ?_, ?_⟩
          · exact ctx_ne_app c _ _ (by decide) (by decide)
          · simp only [List.mem_cons, List.not_mem_nil, or_false, not_or]
            exact ⟨
              ctx_ne c _ (by decide),
              ctx_ne_app c _ _ (by decide) (by decide),
              ctx_ne c _ (by decide),
              ctx_ne_app c _ _ (by decide) (by decide),
              ctx_ne c _ (by decide)⟩
        · intro hc
          subst hc
          rw [linesInter0 co d h1 h2]
          intro l hl
          simp only [List.mem_cons, List.not_mem_nil, or_false] at hl
          rcases hl with rfl | rfl | rfl | rfl | rfl | rfl
          · exact startsWithL_false_app _ _ _ 1 (by decide) (by decide) (by decide)
          · exact startsWithL_false_of_take _ _ 1 (by decide) (by decide)
          · exact startsWithL_false_app _ _ _ 1 (by decide) (by decide) (by decide)
          · exact startsWithL_false_of_take _ _ 1 (by decide) (by decide)
          · exact startsWithL_false_app _ _ _ 1 (by decide) (by decide) (by decide)
          · exact startsWithL_false_of_take _ _ 1 (by decide) (by decide)
      · by_cases m4 : mode = "Problem-Solving with Analogies"
        · subst m4
          constructor
          · intro hc
            rw [linesProblem co d c h1 h2 h3 hc]
            refine ⟨_, _, rfl, ?_, ?_⟩
            · exact ctx_ne_app c _ _ (by decide) (by decide)
            · simp only [List.mem_cons, List.not_mem_nil, or_false, not_or]
              exact ⟨
                ctx_ne c _ (by decide),
                ctx_ne_app c _ _ (by decide) (by decide),
                ctx_ne c _ (by decide),
                ctx_ne c _ (by decide),
                ctx_ne_app c _ _ (by decide) (by decide),
                ctx_ne c _ (by decide),
                ctx_ne c _ (by decide),
                ctx_ne c _ (by decide),
                ctx_ne c _ (by decide)⟩
          · intro hc
            subst hc
            rw [linesProblem0 co d h1 h2]
            intro l hl
            simp only [List.mem_cons, List.not_mem_nil, or_false] at hl
            rcases hl with rfl | rfl | rfl | rfl | rfl | rfl | rfl | rfl | rfl | rfl
            · exact startsWithL_false_app _ _ _ 1 (by decide) (by decide) (by decide)
            · exact startsWithL_false_of_take _ _ 1 (by decide) (by decide)
            · exact startsWithL_false_app _ _ _ 1 (by decide) (by decide) (by decide)
            · exact startsWithL_false_of_take _ _ 1 (by decide) (by decide)
            · exact startsWithL_false_of_take _ _ 1 (by decide) (by decide)
            · exact startsWithL_false_app _ _ _ 1 (by decide) (by decide) (by decide)
            · exact startsWithL_false_of_take _ _ 1 (by decide) (by decide)
            · exact startsWithL_false_of_take _ _ 1 (by decide) (by decide)
            · exact startsWithL_false_of_take _ _ 1 (by decide) (by decide)
            · exact startsWithL_false_of_take _ _ 1 (by decide) (by decide)
        · rw [prompt_unmatched co mode d c m1 m2 m3 m4]
          constructor
          · intro hc
            rw [linesStory co d c h1 h2 h3 hc]
            refine ⟨_, _, rfl, ?_, ?_⟩
            · exact ctx_ne_app2 c _ _ (by decide) (by decide)
            · simp only [List.mem_cons, List.not_mem_nil, or_false, not_or]
              exact ⟨
                ctx_ne c _ (by decide),
                ctx_ne_app c _ _ (by decide) (by decide),
                ctx_ne c _ (by decide),
                ctx_ne c _ (by decide),
                ctx_ne c _ (by decide),
                ctx_ne_app c _ _ (by decide) (by decide),
                ctx_ne_app c _ _ (by decide) (by decide),
                ctx_ne c _ (by decide)⟩
          · intro hc
            subst hc
            rw [linesStory0 co d h1 h2]
            intro l hl
            simp only [List.mem_cons, List.not_mem_nil, or_false] at hl
            rcases hl with rfl | rfl | rfl | rfl | rfl | rfl | rfl | rfl | rfl
            · exact startsWithL_false_app _ _ _ 2 (by decide) (by decide) (by decide)
            · exact startsWithL_false_of_take _ _ 1 (by decide) (by decide)
            · exact startsWithL_false_app _ _ _ 1 (by decide) (by decide) (by decide)
            · exact startsWithL_false_of_take _ _ 1 (by decide) (by decide)
            · exact startsWithL_false_of_take _ _ 1 (by decide) (by decide)
            · exact startsWithL_false_of_take _ _ 1 (by decide) (by decide)
            · exact startsWithL_false_app _ _ _ 1 (by decide) (by decide) (by decide)
            · exact startsWithL_false_app _ _ _ 1 (by decide) (by decide) (by decide)
            · exact startsWithL_false_of_take _ _ 1 (by decide) (by decide)

set_option maxRecDepth 100000 in
/-- C7 (amended): for newline-free concept, difficulty and context the
"Multiple Analogies Comparison" prompt contains exactly three lines bearing
an "Analogy N" section marker, namely the markers for N = 1, 2 and 3 in
order, and no other line starts with such a marker. -/
theorem c7_amended_three_markers (co d c : String)
    (h1 : noNL co) (h2 : noNL d) (h3 : noNL c) :
    (linesL (create_analogy_prompt co "Multiple Analogies Comparison" d c).data).filter
        (fun l => startsWithL "**Analogy ".data l) =
      [ "**Analogy 1:** [First analogy and explanation]".data,
        "**Analogy 2:** [Second analogy and explanation]  ".data,
        "**Analogy 3:** [Third analogy and explanation]".data ] := by
  by_cases hc : c = ""
  · subst hc
    rw [linesMulti0 co d h1 h2]
    have e1 : startsWithL "**Analogy ".data ("Provide 3 different analogies to explain \x27".data ++ (co.data ++ "\x27 from different perspectives. ".data)) = false :=
      startsWithL_false_app _ _ _ 1 (by decide) (by decide) (by decide)
    have e1n : ¬ (startsWithL "**Analogy ".data ("Provide 3 different analogies to explain \x27".data ++ (co.data ++ "\x27 from different perspectives. ".data)) = true) := by
      rw [e1]; decide
    have e2 : startsWithL "**Analogy ".data ([]) = false :=
      startsWithL_false_of_take _ _ 1 (by decide) (by decide)
    have e2n : ¬ (startsWithL "**Analogy ".data ([]) = true) := by
      rw [e2]; decide
    have e3 : startsWithL "**Analogy ".data ("Make it ".data ++ (d.data ++ " level. Show how each analogy highlights different aspects of the concept.".data)) = false :=
      startsWithL_false_app _ _ _ 1 (by decide) (by decide) (by decide)
    have e3n : ¬ (startsWithL "**Analogy ".data ("Make it ".data ++ (d.data ++ " level. Show how each analogy highlights different aspects of the concept.".data)) = true) := by
      rw [e3]; decide
    have e4 : startsWithL "**Analogy ".data ([]) = false :=
      startsWithL_false_of_take _ _ 1 (by decide) (by decide)
    have e4n : ¬ (startsWithL "**Analogy ".data ([]) = true) := by
      rw [e4]; decide
    have e5 : startsWithL "**Analogy ".data ("Format your response as:".data) = false :=
      startsWithL_false_of_take _ _ 1 (by decide) (by decide)
    have e5n : ¬ (startsWithL "**Analogy ".data ("Format your response as:".data) = true) := by
      rw [e5]; decide
    have e6 : startsWithL "**Analogy ".data ("**Concept:** ".data ++ co.data) = false :=
      startsWithL_false_app _ _ _ 3 (by decide) (by decide) (by decide)
    have e6n : ¬ (startsWithL "**Analogy ".data ("**Concept:** ".data ++ co.data) = true) := by
      rw [e6]; decide
    have e7 : startsWithL "**Analogy ".data ("**Analogy 1:** [First analogy and explanation]".data) = true := by decide
    have e8 : startsWithL "**Analogy ".data ("**Analogy 2:** [Second analogy and explanation]  ".data) = true := by decide
    have e9 : startsWithL "**Analogy ".data ("**Analogy 3:** [Third analogy and explanation]".data) = true := by decide
    have e10 : startsWithL "**Analogy ".data ("**Summary:** [How all analogies work together to explain the concept]".data) = false :=
      startsWithL_false_of_take _ _ 3 (by decide) (by decide)
    have e10n : ¬ (startsWithL "**Analogy ".data ("**Summary:** [How all analogies work together to explain the concept]".data) = true) := by
      rw [e10]; decide
    have e11 : startsWithL "**Analogy ".data ([]) = false :=
      startsWithL_false_of_take _ _ 1 (by decide) (by decide)
    have e11n : ¬ (startsWithL "**Analogy ".data ([]) = true) := by
      rw [e11]; decide
    rw [List.filter_cons_of_neg e1n,
      List.filter_cons_of_neg e2n,
      List.filter_cons_of_neg e3n,
      List.filter_cons_of_neg e4n,
      List.filter_cons_of_neg e5n,
      List.filter_cons_of_neg e6n,
      List.filter_cons_of_pos e7,
      List.filter_cons_of_pos e8,
      List.filter_cons_of_pos e9,
      List.filter_cons_of_neg e10n,
      List.filter_cons_of_neg e11n, List.filter_nil]
  · rw [linesMulti co d c h1 h2 h3 hc]
    have e1 : startsWithL "**Analogy ".data ("Provide 3 different analogies to explain \x27".data ++ (co.data ++ "\x27 from different perspectives. ".data)) = false :=
      startsWithL_false_app _ _ _ 1 (by decide) (by decide) (by decide)
    have e1n : ¬ (startsWithL "**Analogy ".data ("Provide 3 different analogies to explain \x27".data ++ (co.data ++ "\x27 from different perspectives. ".data)) = true) := by
      rw [e1]; decide
    have e2 : startsWithL "**Analogy ".data ("Context: ".data ++ c.data) = false :=
      startsWithL_false_app _ _ _ 1 (by decide) (by decide) (by decide)
    have e2n : ¬ (startsWithL "**Analogy ".data ("Context: ".data ++ c.data) = true) := by
      rw [e2]; decide
    have e3 : startsWithL "**Analogy ".data ([]) = false :=
      startsWithL_false_of_take _ _ 1 (by decide) (by decide)
    have e3n : ¬ (startsWithL "**Analogy ".data ([]) = true) := by
      rw [e3]; decide
    have e4 : startsWithL "**Analogy ".data ("Make it ".data ++ (d.data ++ " level. Show how each analogy highlights different aspects of the concept.".data)) = false :=
      startsWithL_false_app _ _ _ 1 (by decide) (by decide) (by decide)
    have e4n : ¬ (startsWithL "**Analogy ".data ("Make it ".data ++ (d.data ++ " level. Show how each analogy highlights different aspects of the concept.".data)) = true) := by
      rw [e4]; decide
    have e5 : startsWithL "**Analogy ".data ([]) = false :=
      startsWithL_false_of_take _ _ 1 (by decide) (by decide)
    have e5n : ¬ (startsWithL "**Analogy ".data ([]) = true) := by
      rw [e5]; decide
    have e6 : startsWithL "**Analogy ".data ("Format your response as:".data) = false :=
      startsWithL_false_of_take _ _ 1 (by decide) (by decide)
    have e6n : ¬ (startsWithL "**Analogy ".data ("Format your response as:".data) = true) := by
      rw [e6]; decide
    have e7 : startsWithL "**Analogy ".data ("**Concept:** ".data ++ co.data) = false :=
      startsWithL_false_app _ _ _ 3 (by decide) (by decide) (by decide)
    have e7n : ¬ (startsWithL "**Analogy ".data ("**Concept:** ".data ++ co.data) = true) := by
      rw [e7]; decide
    have e8 : startsWithL "**Analogy ".data ("**Analogy 1:** [First analogy and explanation]".data) = true := by decide
    have e9 : startsWithL "**Analogy ".data ("**Analogy 2:** [Second analogy and explanation]  ".data) = true := by decide
    have e10 : startsWithL "**Analogy ".data ("**Analogy 3:** [Third analogy and explanation]".data) = true := by decide
    have e11 : startsWithL "**Analogy ".data ("**Summary:** [How all analogies work together to explain the concept]".data) = false :=
      startsWithL_false_of_take _ _ 3 (by decide) (by decide)
    have e11n : ¬ (startsWithL "**Analogy ".data ("**Summary:** [How all analogies work together to explain the concept]".data) = true) := by
      rw [e11]; decide
    have e12 : startsWithL "**Analogy ".data ([]) = false :=
      startsWithL_false_of_take _ _ 1 (by decide) (by decide)
    have e12n : ¬ (startsWithL "**Analogy ".data ([]) = true) := by
      rw [e12]; decide
    rw [List.filter_cons_of_neg e1n,
      List.filter_cons_of_neg e2n,
      List.filter_cons_of_neg e3n,
      List.filter_cons_of_neg e4n,
      List.filter_cons_of_neg e5n,
      List.filter_cons_of_neg e6n,
      List.filter_cons_of_neg e7n,
      List.filter_cons_of_pos e8,
      List.filter_cons_of_pos e9,
      List.filter_cons_of_pos e10,
      List.filter_cons_of_neg e11n,
      List.filter_cons_of_neg e12n, List.filter_nil]

set_option maxRecDepth 200000 in
/-- C4 counterexample: with the realistic multi-line context
"line one\nline two" (the context field is a multi-line text area) no line
of the rendered prompt equals "Context: {context}", so the prompt does not
contain exactly one such line as the claim states. -/
theorem c4_counterexample :
    (linesL (create_analogy_prompt "Photosynthesis" "Simple Analogy Explanation" "Beginner"
        "line one\nline two").data).count ("Context: " ++ "line one\nline two").data = 0 := by
  decide

/-- Witness for C4 at concrete inputs. -/
theorem c4_amended_context_line_witness :
    noNL "for a 10-year-old" ∧
      ((("for a 10-year-old" : String) ≠ "" → ∃ l1 rest,
          linesL (create_analogy_prompt "Photosynthesis" "Simple Analogy Explanation"
            "Beginner" "for a 10-year-old").data =
            l1 :: ("Context: ".data ++ "for a 10-year-old".data) :: rest ∧
          "Context: ".data ++ "for a 10-year-old".data ≠ l1 ∧
          "Context: ".data ++ "for a 10-year-old".data ∉ rest) ∧
        (("for a 10-year-old" : String) = "" →
          ∀ l ∈ linesL (create_analogy_prompt "Photosynthesis" "Simple Analogy Explanation"
            "Beginner" "for a 10-year-old").data,
            startsWithL "Context:".data l = false)) :=
  ⟨by decide, c4_amended_context_line "Simple Analogy Explanation" "Photosynthesis" "Beginner"
    "for a 10-year-old" (by decide) (by decide) (by decide)⟩

set_option maxRecDepth 200000 in
/-- C7 counterexample: a concept containing an embedded line
"**Analogy 4:** [Y]" makes the rendered prompt carry five Analogy-marker
lines (the embedded "Analogy 4" line appears once from the opening line and
once from the "**Concept:**" line, beside the three genuine ones), so the
prompt does not contain exactly the three markers N = 1, 2, 3 that the
claim states. -/
theorem c7_counterexample :
    ((linesL (create_analogy_prompt "X\n**Analogy 4:** [Y]" "Multiple Analogies Comparison"
        "Beginner" "").data).filter (fun l => startsWithL "**Analogy ".data l)).length = 5 := by
  decide

/-- Witness for C7 at concrete inputs. -/
theorem c7_amended_three_markers_witness :
    noNL "Photosynthesis" ∧
      (linesL (create_analogy_prompt "Photosynthesis" "Multiple Analogies Comparison"
          "Advanced" "").data).filter (fun l => startsWithL "**Analogy ".data l) =
        [ "**Analogy 1:** [First analogy and explanation]".data,
          "**Analogy 2:** [Second analogy and explanation]  ".data,
          "**Analogy 3:** [Third analogy and explanation]".data ] :=
  ⟨by decide, c7_amended_three_markers "Photosynthesis" "Advanced" "" (by decide) (by decide)
    (by decide)⟩
